import Mathlib

/-!
Shallow embedding of the change-detection core of the competitor-analysis
repository, taken from `src/services/websiteMonitor.js` (class
`WebsiteMonitor`).  JavaScript numbers are modelled by `Rat` (all metric
values the monitor produces are integer counts), JavaScript objects used as
string-keyed maps by association lists in insertion order, and absent
(`undefined` / `null`) values by `Option`.
-/

/-- Models the JavaScript regular-expression character class `\s` on the
characters that occur in page text: space, tab, line feed, carriage return,
vertical tab and form feed. -/
def jsWhitespace (c : Char) : Bool :=
  c = ' ' || c = '\t' || c = '\n' || c = '\r' || c = '\x0b' || c = '\x0c'

mutual

/-- State of `String.prototype.split(/\s+/)` while reading a word: `cur` holds
the characters of the current word in reverse. -/
def wordsAux : List Char → List Char → List (List Char)
  | [], cur => [cur.reverse]
  | c :: cs, cur =>
    if jsWhitespace c then cur.reverse :: wordsGap cs
    else wordsAux cs (c :: cur)

/-- State of `String.prototype.split(/\s+/)` while consuming a (nonempty)
run of whitespace separators. -/
def wordsGap : List Char → List (List Char)
  | [] => [[]]
  | c :: cs => if jsWhitespace c then wordsGap cs else wordsAux cs [c]

end

/-- Models `String.prototype.split(/\s+/)`: splits at maximal nonempty runs
of whitespace; a leading (resp. trailing) separator run contributes an empty
first (resp. last) token, and the empty string yields `[""]`. -/
def splitOnWhitespace (s : String) : List String :=
  (wordsAux s.data []).map fun l => String.mk l

/-- Lookup of a string key in a JavaScript object modelled as an association
list in insertion order (property access `obj[key]`, `undefined` as `none`). -/
def lookupStr {α : Type} : List (String × α) → String → Option α
  | [], _ => none
  | (k, v) :: rest, key => if k = key then some v else lookupStr rest key

/-- Replace-or-append write of a string key (property assignment, or the
snapshot store writing the file named by the key). -/
def insertStr {α : Type} : List (String × α) → String → α → List (String × α)
  | [], key, v => [(key, v)]
  | (k, w) :: rest, key, v =>
    if k = key then (key, v) :: rest else (k, w) :: insertStr rest key v

/-- One change record, as pushed by `detectChanges` / `compareMetrics`.
Content, title and url records carry no `metric` / `change` fields; the
absent fields are modelled by `none`. -/
structure ChangeRecord where
  type : String
  metric : Option String := none
  description : String
  severity : String
  change : Option Rat := none
  deriving DecidableEq

/-- Decimal rendering of a rational number; models JavaScript
number-to-string coercion on the integer-valued metric counts the monitor
produces. -/
def ratStr (q : Rat) : String :=
  if q.den = 1 then
    (if q.num < 0 then "-" else "") ++ toString q.num.natAbs
  else
    toString q.num ++ "/" ++ toString q.den

/-- Models `Number.prototype.toFixed(1)`: rendering with one decimal digit,
rounding to the nearest tenth (half away from zero on the nonnegative
values it is applied to here). -/
def toFixed1 (q : Rat) : String :=
  let n : Int := ⌊q * 10 + 1 / 2⌋
  (if n < 0 then "-" else "") ++ toString (n.natAbs / 10) ++ "." ++
    toString (n.natAbs % 10)

/-- The object literal pushed by `compareMetrics` for metric `metric` with
previous value `pv` and current value `cv`. -/
def metricRecord (metric : String) (pv cv : Rat) : ChangeRecord :=
  { type := "metric"
    metric := some metric
    description := metric ++ " changed from " ++ ratStr pv ++ " to " ++
      ratStr cv ++ " (" ++ toFixed1 (|cv - pv| / pv * 100) ++ "% change)"
    severity := if |cv - pv| / pv > 1 / 2 then "high" else "medium"
    change := some (|cv - pv| / pv) }

/-- `WebsiteMonitor.compareMetrics(current, previous)`: iterates the keys of
`current` in insertion order; a key whose previous value is absent or `0`
(falsy) is skipped, otherwise the relative change `|current - previous| /
previous` is compared against the 10% threshold. -/
def compareMetrics : List (String × Rat) → List (String × Rat) → List ChangeRecord
  | [], _ => []
  | (metric, cv) :: rest, previous =>
    (match lookupStr previous metric with
     | some pv =>
       -- JavaScript truthiness of `previous[metric]`: a number is truthy
       -- exactly when it is nonzero.
       if pv ≠ 0 then
         -- 10% change threshold
         if |cv - pv| / pv > 1 / 10 then [metricRecord metric pv cv] else []
       else []
     | none => []) ++ compareMetrics rest previous

/-- A page snapshot.  Models both the object returned by
`WebsiteMonitor.getPageContent` (which carries no `hash` field, modelled by
`hash = none`) and the object persisted by `monitorWebsite` (which has
`hash` set to the content digest). -/
structure Snapshot where
  html : String
  title : String
  url : String
  textContent : String
  metrics : List (String × Rat)
  timestamp : String
  hash : Option String := none
  deriving DecidableEq

/-- `WebsiteMonitor.generateHash(content)`: the sha256 hex digest of the
content.  The digest itself is outside this development; it is modelled by
an injective stand-in, which is sound here because no theorem below depends
on any property of the digest beyond its being a function of the content. -/
def generateHash (content : String) : String :=
  "sha256:" ++ content

/-- `WebsiteMonitor.detectChanges(current, previous)`: the ordered change
list — content record, then title record, then url record, then the metric
records. -/
def detectChanges (current previous : Snapshot) : List ChangeRecord :=
  (if current.hash ≠ previous.hash then
    [{ type := "content"
       description := "Page content has changed"
       severity := "medium" }]
   else []) ++
  (if current.title ≠ previous.title then
    [{ type := "title"
       description := "Title changed from \"" ++ previous.title ++
         "\" to \"" ++ current.title ++ "\""
       severity := "high" }]
   else []) ++
  (if current.url ≠ previous.url then
    [{ type := "url"
       description := "URL changed from \"" ++ previous.url ++ "\" to \"" ++
         current.url ++ "\""
       severity := "high" }]
   else []) ++
  compareMetrics current.metrics previous.metrics

/-- `WebsiteMonitor.calculateChangeRate(current, previous)`: one minus the
number of words of the current text that occur among the words of the
previous text (duplicates counted), divided by the larger word count. -/
def calculateChangeRate (current previous : Snapshot) : Rat :=
  let currentWords := splitOnWhitespace current.textContent
  let previousWords := splitOnWhitespace previous.textContent
  let commonWords := currentWords.filter fun word => previousWords.contains word
  1 - ((commonWords.length : Rat) /
    ((max currentWords.length previousWords.length : Nat) : Rat))

/-- `results.metrics` as computed by `WebsiteMonitor.calculateMetrics`. -/
structure MetricsReport where
  currentMetrics : List (String × Rat)
  previousMetrics : List (String × Rat)
  changeRate : Rat
  deriving DecidableEq

/-- `WebsiteMonitor.calculateMetrics(current, previous)`. -/
def calculateMetrics (current : Snapshot) (previous : Option Snapshot) :
    MetricsReport :=
  { currentMetrics := current.metrics
    previousMetrics := match previous with
      | some p => p.metrics
      | none => []
    changeRate := match previous with
      | some p => calculateChangeRate current p
      | none => 0 }

/-- JSON values, the image of `JSON.stringify` / `JSON.parse`.  Numbers are
modelled by `Rat`; the JavaScript numbers that reach the store are doubles,
which `JSON.stringify` / `JSON.parse` round-trip exactly, so modelling the
serialized text at the level of this value tree is faithful. -/
inductive Json where
  | null : Json
  | bool : Bool → Json
  | num : Rat → Json
  | str : String → Json
  | arr : List Json → Json
  | obj : List (String × Json) → Json

/-- Serialization of a metrics map. -/
def metricsToJson (m : List (String × Rat)) : Json :=
  Json.obj (m.map fun kv => (kv.1, Json.num kv.2))

/-- `JSON.stringify` of a snapshot object, at the JSON value level.
`JSON.stringify` drops fields holding `undefined`, so an absent `hash`
contributes no field. -/
def snapshotToJson (s : Snapshot) : Json :=
  Json.obj
    ([("html", Json.str s.html),
      ("title", Json.str s.title),
      ("url", Json.str s.url),
      ("textContent", Json.str s.textContent),
      ("metrics", metricsToJson s.metrics),
      ("timestamp", Json.str s.timestamp)] ++
     (match s.hash with
      | some h => [("hash", Json.str h)]
      | none => []))

/-- Reads a string field of a parsed JSON object. -/
def asString : Option Json → Option String
  | some (Json.str s) => some s
  | _ => none

/-- Reads a parsed metrics object back as a metrics map. -/
def metricsOfJsonList : List (String × Json) → Option (List (String × Rat))
  | [] => some []
  | (k, Json.num q) :: rest =>
    (metricsOfJsonList rest).map fun m => (k, q) :: m
  | _ => none

/-- The typed view of a `JSON.parse`d snapshot file: the snapshot whose
fields are the parsed object's fields, or `none` when the parsed value does
not have the shape `saveSnapshot` writes. -/
def parseSnapshot : Json → Option Snapshot
  | Json.obj fields => do
    let html ← asString (lookupStr fields "html")
    let title ← asString (lookupStr fields "title")
    let url ← asString (lookupStr fields "url")
    let textContent ← asString (lookupStr fields "textContent")
    let metrics ←
      match lookupStr fields "metrics" with
      | some (Json.obj ms) => metricsOfJsonList ms
      | _ => none
    let timestamp ← asString (lookupStr fields "timestamp")
    let hash ←
      match lookupStr fields "hash" with
      | none => some none
      | some (Json.str h) => some (some h)
      | some _ => none
    pure { html, title, url, textContent, metrics, timestamp, hash }
  | _ => none

/-- The snapshots directory: one serialized document per competitor id. -/
abbrev Store : Type := List (String × Json)

/-- `WebsiteMonitor.loadPreviousSnapshot(competitorId)`: reads and parses
the snapshot file; any failure (missing file, malformed content) yields
`none` — "no previous snapshot exists". -/
def loadPreviousSnapshot (store : Store) (competitorId : String) :
    Option Snapshot :=
  match lookupStr store competitorId with
  | none => none
  | some j => parseSnapshot j

/-- `WebsiteMonitor.saveSnapshot(competitorId, snapshot)`.  `writeOk` models
whether `fs.writeFile` succeeds; on failure the error is caught and only
logged, leaving the store unchanged. -/
def saveSnapshot (writeOk : Bool) (store : Store) (competitorId : String)
    (snapshot : Snapshot) : Store :=
  if writeOk then insertStr store competitorId (snapshotToJson snapshot)
  else store

/-- The fields of a competitor record that `monitorWebsite` / `monitorAll`
read.  `monitoringWebsite` is `competitor.monitoring?.website`. -/
structure Competitor where
  id : String
  name : String
  website : String
  monitoringWebsite : Bool
  deriving DecidableEq

/-- The `results` object returned by `WebsiteMonitor.monitorWebsite`.
`metricsReport` is `results.metrics`; its initial empty-object value is
modelled by `none`. -/
structure MonitorResult where
  competitor : String
  website : String
  timestamp : String
  changes : List ChangeRecord
  errors : List String
  metricsReport : Option MetricsReport
  deriving DecidableEq

/-- `WebsiteMonitor.monitorWebsite(competitor)` as a function of the
outcomes of its external effects: `fetched` is the result of
`getPageContent` (`none` on fetch failure), `writeOk` the outcome of the
snapshot write, `now` the run timestamp.  Returns the results object and
the store after the run.  Note that the fetched content is passed to
`detectChanges` as is — without the computed `contentHash` attached, which
is only added to the object that `saveSnapshot` persists. -/
def monitorWebsite (store : Store) (competitor : Competitor)
    (fetched : Option Snapshot) (writeOk : Bool) (now : String) :
    MonitorResult × Store :=
  match fetched with
  | none =>
    ({ competitor := competitor.name
       website := competitor.website
       timestamp := now
       changes := []
       errors := ["Failed to fetch page content"]
       metricsReport := none }, store)
  | some currentContent =>
    let contentHash := generateHash currentContent.html
    let previousSnapshot := loadPreviousSnapshot store competitor.id
    let changes := match previousSnapshot with
      | some prev => detectChanges currentContent prev
      | none => []
    let metricsReport := match previousSnapshot with
      | some prev => some (calculateMetrics currentContent (some prev))
      | none => none
    let newStore := saveSnapshot writeOk store competitor.id
      { currentContent with hash := some contentHash, timestamp := now }
    ({ competitor := competitor.name
       website := competitor.website
       timestamp := now
       changes := changes
       errors := []
       metricsReport := metricsReport }, newStore)

/-- `WebsiteMonitor.monitorAll(competitors)`: runs `monitorWebsite` for
each competitor whose monitoring flag is set, threading the snapshot store;
each list element carries the competitor together with the outcomes of its
fetch and its snapshot write. -/
def monitorAll (store : Store)
    (runs : List (Competitor × Option Snapshot × Bool)) (now : String) :
    List MonitorResult × Store :=
  match runs with
  | [] => ([], store)
  | (competitor, fetched, writeOk) :: rest =>
    if competitor.monitoringWebsite then
      let (result, store2) := monitorWebsite store competitor fetched writeOk now
      let (results, store3) := monitorAll store2 rest now
      (result :: results, store3)
    else monitorAll store rest now

/-! Concrete fixtures used by the witness and scenario theorems. -/

/-- Metrics of the sample page. -/
def sampleMetrics : List (String × Rat) :=
  [("wordCount", 3), ("linkCount", 5), ("imageCount", 2), ("headingCount", 1)]

/-- Fetched content of the sample page (first and second observation). -/
def content1 : Snapshot :=
  { html := "<html><head><title>Home</title></head><body>Welcome to Acme</body></html>"
    title := "Home"
    url := "https://acme.example/"
    textContent := "Welcome to Acme"
    metrics := sampleMetrics
    timestamp := "2026-01-01T10:00:00.000Z"
    hash := none }

/-- Fetched content of the sample page with only the `<title>` tag changed. -/
def content3 : Snapshot :=
  { html := "<html><head><title>About</title></head><body>Welcome to Acme</body></html>"
    title := "About"
    url := "https://acme.example/"
    textContent := "Welcome to Acme"
    metrics := sampleMetrics
    timestamp := "2026-01-03T10:00:00.000Z"
    hash := none }

/-- The sample competitor. -/
def comp1 : Competitor :=
  { id := "acme", name := "Acme", website := "https://acme.example/",
    monitoringWebsite := true }

/-- First monitoring run: empty store, no previous snapshot. -/
def firstRun : MonitorResult × Store :=
  monitorWebsite [] comp1 (some content1) true "2026-01-01T10:00:00.000Z"

/-- Second monitoring run: identical fetched content. -/
def secondRun : MonitorResult × Store :=
  monitorWebsite firstRun.2 comp1 (some content1) true "2026-01-02T10:00:00.000Z"

/-- Third monitoring run: only the `<title>` tag changed. -/
def thirdRun : MonitorResult × Store :=
  monitorWebsite secondRun.2 comp1 (some content3) true "2026-01-03T10:00:00.000Z"

/-- Snapshot whose visible text is "a b c d". -/
def textSnapABCD : Snapshot :=
  { html := "<html><body>a b c d</body></html>"
    title := "T"
    url := "https://acme.example/"
    textContent := "a b c d"
    metrics := [("wordCount", 4)]
    timestamp := "2026-01-01T10:00:00.000Z"
    hash := none }

/-- Snapshot whose visible text is "e f g h". -/
def textSnapEFGH : Snapshot :=
  { textSnapABCD with
    html := "<html><body>e f g h</body></html>"
    textContent := "e f g h" }

/-- Stored snapshot with title "Home". -/
def titledHome : Snapshot :=
  { content1 with hash := some "abc123" }

/-- Stored snapshot identical to `titledHome` except for the title case. -/
def titledhome : Snapshot :=
  { titledHome with title := "home" }


/-- Position of a change-record type in the fixed emission order of
`detectChanges`: content, then title, then url, then metric. -/
def typeRank (t : String) : Nat :=
  if t = "content" then 0
  else if t = "title" then 1
  else if t = "url" then 2
  else 3

/-! Lemmas about the association-list operations. -/

theorem lookupStr_mem {α : Type} {l : List (String × α)} {k : String} {v : α}
    (h : lookupStr l k = some v) : (k, v) ∈ l := by
  induction l with
  | nil => simp [lookupStr] at h
  | cons kv rest ih =>
    obtain ⟨k1, v1⟩ := kv
    by_cases hk : k1 = k
    · subst hk
      simp [lookupStr] at h
      simp [h]
    · simp [lookupStr, hk] at h
      exact List.mem_cons_of_mem _ (ih h)

theorem lookupStr_eq_some_of_nodup {α : Type} {l : List (String × α)}
    {k : String} {v : α} (hnd : (l.map Prod.fst).Nodup) (hm : (k, v) ∈ l) :
    lookupStr l k = some v := by
  induction l with
  | nil => simp at hm
  | cons kv rest ih =>
    obtain ⟨k1, v1⟩ := kv
    simp only [List.map_cons, List.nodup_cons] at hnd
    rcases List.mem_cons.mp hm with heq | hmem
    · obtain ⟨hk, hv⟩ := Prod.mk.injEq .. ▸ heq
      simp [lookupStr, hk.symm, hv]
    · have hk : k1 ≠ k := by
        intro hk
        subst hk
        exact hnd.1 (List.mem_map.mpr ⟨(k1, v), hmem, rfl⟩)
      simp [lookupStr, hk]
      exact ih hnd.2 hmem

theorem lookupStr_eq_none_iff {α : Type} {l : List (String × α)} {k : String} :
    lookupStr l k = none ↔ ∀ v : α, (k, v) ∉ l := by
  induction l with
  | nil => simp [lookupStr]
  | cons kv rest ih =>
    obtain ⟨k1, v1⟩ := kv
    by_cases hk : k1 = k
    · subst hk
      simp only [lookupStr, if_pos rfl]
      constructor
      · intro h
        exact absurd h (by simp)
      · intro h
        exact absurd (List.mem_cons_self _ _) (h v1)
    · simp only [lookupStr, if_neg hk, ih]
      constructor
      · intro h v hv
        rcases List.mem_cons.mp hv with heq | hmem
        · exact hk ((congrArg Prod.fst heq).symm)
        · exact h v hmem
      · intro h v hv
        exact h v (List.mem_cons_of_mem _ hv)

theorem lookupStr_insertStr_self {α : Type} (l : List (String × α))
    (k : String) (v : α) : lookupStr (insertStr l k v) k = some v := by
  induction l with
  | nil => simp [insertStr, lookupStr]
  | cons kv rest ih =>
    obtain ⟨k1, v1⟩ := kv
    by_cases hk : k1 = k
    · simp [insertStr, hk, lookupStr]
    · simp [insertStr, hk, lookupStr, ih]

/-! Lemmas about `compareMetrics`. -/

theorem mem_compareMetrics_iff {cur previous : List (String × Rat)}
    {r : ChangeRecord} :
    r ∈ compareMetrics cur previous ↔
      ∃ kv ∈ cur, ∃ pv : Rat, lookupStr previous kv.1 = some pv ∧ pv ≠ 0 ∧
        |kv.2 - pv| / pv > 1 / 10 ∧ r = metricRecord kv.1 pv kv.2 := by
  induction cur with
  | nil => simp [compareMetrics]
  | cons kv rest ih =>
    obtain ⟨metric, cv⟩ := kv
    simp only [compareMetrics, List.mem_append, ih]
    constructor
    · rintro (hhead | ⟨kv2, hkv2, pv, hl, hpv, hgt, hr⟩)
      · rcases hlk : lookupStr previous metric with _ | pv
        · simp only [hlk] at hhead
          simp at hhead
        · simp only [hlk] at hhead
          by_cases hpv : pv ≠ 0
          · rw [if_pos hpv] at hhead
            by_cases hgt : |cv - pv| / pv > 1 / 10
            · rw [if_pos hgt] at hhead
              simp only [List.mem_singleton] at hhead
              exact ⟨(metric, cv), List.mem_cons_self _ _, pv, hlk, hpv, hgt, hhead⟩
            · rw [if_neg hgt] at hhead
              simp at hhead
          · rw [if_neg hpv] at hhead
            simp at hhead
      · exact ⟨kv2, List.mem_cons_of_mem _ hkv2, pv, hl, hpv, hgt, hr⟩
    · rintro ⟨kv2, hkv2, pv, hl, hpv, hgt, hr⟩
      rcases List.mem_cons.mp hkv2 with heq | hmem
      · left
        subst heq
        simp only [hl, if_pos hpv, if_pos hgt]
        simp [hr]
      · right
        exact ⟨kv2, hmem, pv, hl, hpv, hgt, hr⟩

theorem compareMetrics_type {cur previous : List (String × Rat)}
    {r : ChangeRecord} (h : r ∈ compareMetrics cur previous) :
    r.type = "metric" := by
  obtain ⟨kv, _, pv, _, _, _, hr⟩ := mem_compareMetrics_iff.mp h
  rw [hr]
  rfl

theorem compareMetrics_eq_nil_of_lookup {cur previous : List (String × Rat)}
    (h : ∀ kv ∈ cur, lookupStr previous kv.1 = some kv.2) :
    compareMetrics cur previous = [] := by
  induction cur with
  | nil => rfl
  | cons kv rest ih =>
    obtain ⟨metric, cv⟩ := kv
    have hl := h (metric, cv) (List.mem_cons_self _ _)
    simp only [compareMetrics, hl]
    rw [ih fun kv hkv => h kv (List.mem_cons_of_mem _ hkv)]
    by_cases hcv : cv ≠ 0
    · rw [if_pos hcv, if_neg (by simp)]
      simp
    · rw [if_neg hcv]
      simp

theorem compareMetrics_self {m : List (String × Rat)}
    (hnd : (m.map Prod.fst).Nodup) : compareMetrics m m = [] :=
  compareMetrics_eq_nil_of_lookup fun _ hkv => lookupStr_eq_some_of_nodup hnd hkv

/-! Lemmas about whitespace splitting. -/

theorem wordsAux_ne_nil_and_wordsGap_ne_nil (l : List Char) :
    (∀ cur : List Char, wordsAux l cur ≠ []) ∧ wordsGap l ≠ [] := by
  induction l with
  | nil => simp [wordsAux, wordsGap]
  | cons c cs ih =>
    constructor
    · intro cur
      rw [wordsAux]
      by_cases hc : jsWhitespace c
      · simp [hc]
      · simp only [hc, if_neg, Bool.false_eq_true, ite_false]
        exact ih.1 (c :: cur)
    · rw [wordsGap]
      by_cases hc : jsWhitespace c
      · simp only [hc, if_pos]
        exact ih.2
      · simp only [hc, Bool.false_eq_true, ite_false]
        exact ih.1 [c]

theorem one_le_splitOnWhitespace_length (s : String) :
    1 ≤ (splitOnWhitespace s).length := by
  rw [splitOnWhitespace, List.length_map]
  rcases hl : wordsAux s.data [] with _ | ⟨w, ws⟩
  · exact absurd hl ((wordsAux_ne_nil_and_wordsGap_ne_nil s.data).1 [])
  · simp

/-! Lemmas about the serialized snapshot round trip. -/

theorem metricsOfJsonList_metricsToJson (m : List (String × Rat)) :
    metricsOfJsonList (m.map fun kv => (kv.1, Json.num kv.2)) = some m := by
  induction m with
  | nil => rfl
  | cons kv rest ih =>
    simp [metricsOfJsonList, ih]

theorem parseSnapshot_snapshotToJson (s : Snapshot) :
    parseSnapshot (snapshotToJson s) = some s := by
  obtain ⟨html, title, url, textContent, metrics, timestamp, hash⟩ := s
  cases hash with
  | none =>
    simp [snapshotToJson, parseSnapshot, lookupStr, asString, metricsToJson,
      metricsOfJsonList_metricsToJson, bind, pure]
  | some h =>
    simp [snapshotToJson, parseSnapshot, lookupStr, asString, metricsToJson,
      metricsOfJsonList_metricsToJson, bind, pure]

/-! Lemmas about the orchestration. -/

theorem monitorAll_length
    (runs : List (Competitor × Option Snapshot × Bool)) (store : Store)
    (now : String) :
    (monitorAll store runs now).1.length =
      (runs.filter fun r => r.1.monitoringWebsite).length := by
  induction runs generalizing store with
  | nil => rfl
  | cons r rest ih =>
    obtain ⟨competitor, fetched, writeOk⟩ := r
    by_cases hm : competitor.monitoringWebsite
    · simp [monitorAll, hm, ih]
    · simp [monitorAll, hm, ih]

/-- C2: for every pair of snapshots whose content hash, title, url and
metrics maps are respectively equal, `detectChanges` returns the empty
sequence of change records.  (JavaScript object keys are unique, which the
association-list model states as `Nodup` on the metric keys.) -/
theorem C2_equal_snapshots_detectChanges_nil (c p : Snapshot)
    (hh : c.hash = p.hash) (ht : c.title = p.title) (hu : c.url = p.url)
    (hm : c.metrics = p.metrics) (hnd : (c.metrics.map Prod.fst).Nodup) :
    detectChanges c p = [] := by
  rw [detectChanges, if_neg (by simp [hh]), if_neg (by simp [ht]),
    if_neg (by simp [hu]), hm, compareMetrics_self (hm ▸ hnd)]
  simp

/-- Witness for C2 at a concrete snapshot pair. -/
theorem C2_witness : detectChanges textSnapABCD textSnapABCD = [] :=
  C2_equal_snapshots_detectChanges_nil textSnapABCD textSnapABCD rfl rfl rfl rfl
    (by decide)

/-- C3: when no previous snapshot is stored for the entity, the comparison
step of the run produces the empty change list, whatever the fetched
current content is (the guard sits at the `detectChanges` call site in
`monitorWebsite`). -/
theorem C3_absent_previous_no_changes (store : Store) (competitor : Competitor)
    (content : Snapshot) (writeOk : Bool) (now : String)
    (habsent : loadPreviousSnapshot store competitor.id = none) :
    (monitorWebsite store competitor (some content) writeOk now).1.changes = [] := by
  simp [monitorWebsite, habsent]

/-- Witness for C3: a run against the empty store. -/
theorem C3_witness :
    (monitorWebsite [] comp1 (some content1) true
      "2026-01-01T10:00:00.000Z").1.changes = [] :=
  C3_absent_previous_no_changes [] comp1 content1 true "2026-01-01T10:00:00.000Z" rfl

/-- C5: a metric key absent from either side, or whose previous value is 0,
never yields a metric record; and every emitted metric record's relative
change was computed with a nonzero previous value as divisor. -/
theorem C5_skipped_keys_no_metric_record (cur prev : List (String × Rat))
    (k : String)
    (hskip : lookupStr cur k = none ∨ lookupStr prev k = none ∨
      lookupStr prev k = some 0) :
    (∀ r ∈ compareMetrics cur prev, r.metric ≠ some k) ∧
    (∀ r ∈ compareMetrics cur prev, ∃ k2 : String, ∃ pv cv : Rat,
      r = metricRecord k2 pv cv ∧ lookupStr prev k2 = some pv ∧ pv ≠ 0 ∧
      r.change = some (|cv - pv| / pv)) := by
  constructor
  · intro r hr hk
    obtain ⟨kv, hkv, pv, hl, hpv, _, hrec⟩ := mem_compareMetrics_iff.mp hr
    have hk1 : kv.1 = k := by
      rw [hrec] at hk
      simpa [metricRecord] using hk
    rcases hskip with hcur | hprev | hzero
    · exact (lookupStr_eq_none_iff.mp hcur kv.2) (by rw [← hk1]; exact hkv)
    · rw [hk1] at hl
      rw [hl] at hprev
      cases hprev
    · rw [hk1] at hl
      rw [hl] at hzero
      exact hpv (Option.some.injEq .. ▸ hzero)
  · intro r hr
    obtain ⟨kv, hkv, pv, hl, hpv, _, hrec⟩ := mem_compareMetrics_iff.mp hr
    exact ⟨kv.1, pv, kv.2, hrec, hl, hpv, by rw [hrec]; rfl⟩

/-- Witness for C5: previous value 0 for the only key. -/
theorem C5_witness :
    ((compareMetrics [("wordCount", (50 : Rat))] [("wordCount", (0 : Rat))]).all
      fun r => decide (r.metric ≠ some "wordCount")) = true := by
  rw [List.all_eq_true]
  intro r hr
  exact decide_eq_true ((C5_skipped_keys_no_metric_record _ _ "wordCount"
    (Or.inr (Or.inr (by decide)))).1 r hr)

/-- C10: `calculateChangeRate` is total: splitting any string on whitespace
yields at least one token (the empty string yields one empty token), so the
divisor of `calculateChangeRate` is at least 1 and never zero. -/
theorem C10_change_rate_divisor_positive (c p : Snapshot) :
    1 ≤ (splitOnWhitespace c.textContent).length ∧
    1 ≤ (splitOnWhitespace p.textContent).length ∧
    ((max (splitOnWhitespace c.textContent).length
        (splitOnWhitespace p.textContent).length : Nat) : Rat) ≠ 0 ∧
    splitOnWhitespace "" = [""] ∧
    calculateChangeRate c p =
      1 - ((((splitOnWhitespace c.textContent).filter fun word =>
          (splitOnWhitespace p.textContent).contains word).length : Rat) /
        ((max (splitOnWhitespace c.textContent).length
            (splitOnWhitespace p.textContent).length : Nat) : Rat)) := by
  refine ⟨one_le_splitOnWhitespace_length _, one_le_splitOnWhitespace_length _,
    ?_, by decide, rfl⟩
  have h1 : 1 ≤ max (splitOnWhitespace c.textContent).length
      (splitOnWhitespace p.textContent).length :=
    le_trans (one_le_splitOnWhitespace_length _) (le_max_left _ _)
  exact Nat.cast_ne_zero.mpr (by omega)

/-- C4: for a metric key present in both maps with previous value `p > 0`
and current value `c`, a metric record is emitted iff the relative change
`|c - p| / p` exceeds 0.10, with severity high iff it exceeds 0.50 (else
medium); in particular 100 → 109 emits nothing, 100 → 111 emits exactly one
medium metric record, and 100 → 160 emits a high one. -/
theorem C4_metric_threshold (cur prev : List (String × Rat)) (k : String)
    (p c : Rat) (hnd : (cur.map Prod.fst).Nodup)
    (hp : lookupStr prev k = some p) (hppos : 0 < p)
    (hc : lookupStr cur k = some c) :
    ((∃ r ∈ compareMetrics cur prev, r.metric = some k) ↔ |c - p| / p > 1 / 10) ∧
    (∀ r ∈ compareMetrics cur prev, r.metric = some k →
      r.type = "metric" ∧
      r.severity = if |c - p| / p > 1 / 2 then "high" else "medium") ∧
    compareMetrics [("wordCount", (109 : Rat))] [("wordCount", (100 : Rat))] = [] ∧
    ((compareMetrics [("wordCount", (111 : Rat))] [("wordCount", (100 : Rat))]).map
      fun r => (r.type, r.severity)) = [("metric", "medium")] ∧
    ((compareMetrics [("wordCount", (160 : Rat))] [("wordCount", (100 : Rat))]).map
      fun r => r.severity) = ["high"] := by
  have hmemc : (k, c) ∈ cur := lookupStr_mem hc
  have hfull : ∀ r ∈ compareMetrics cur prev, r.metric = some k →
      r = metricRecord k p c ∧ |c - p| / p > 1 / 10 := by
    intro r hr hk
    obtain ⟨kv, hkv, pv, hl, hpv, hgt, hrec⟩ := mem_compareMetrics_iff.mp hr
    have hk1 : kv.1 = k := by
      rw [hrec] at hk
      simpa [metricRecord] using hk
    have hv : kv.2 = c := by
      have h2 := lookupStr_eq_some_of_nodup hnd hkv
      rw [hk1, hc] at h2
      exact (Option.some_inj.mp h2).symm
    have hpv2 : pv = p := by
      rw [hk1, hp] at hl
      exact (Option.some_inj.mp hl).symm
    rw [hv, hpv2] at hgt
    rw [hrec, hk1, hpv2, hv]
    exact ⟨rfl, hgt⟩
  refine ⟨⟨fun ⟨r, hr, hk⟩ => (hfull r hr hk).2, fun hgt =>
      ⟨metricRecord k p c, mem_compareMetrics_iff.mpr
        ⟨(k, c), hmemc, p, hp, ne_of_gt hppos, hgt, rfl⟩, rfl⟩⟩,
    fun r hr hk => by rw [(hfull r hr hk).1]; exact ⟨rfl, rfl⟩,
    by with_unfolding_all decide, by with_unfolding_all decide,
    by with_unfolding_all decide⟩

/-- Witness for C4 at the 100 → 111 boundary instance. -/
theorem C4_witness :
    (∃ r ∈ compareMetrics [("wordCount", (111 : Rat))] [("wordCount", (100 : Rat))],
      r.metric = some "wordCount") ↔ |(111 : Rat) - 100| / 100 > 1 / 10 :=
  (C4_metric_threshold _ _ "wordCount" 100 111 (by decide) (by decide)
    (by norm_num) (by decide)).1

/-- Membership in a conditional singleton list. -/
theorem mem_ite_singleton {α : Type} {x r : α} {cond : Prop} [Decidable cond] :
    (r ∈ if cond then [x] else []) ↔ cond ∧ r = x := by
  by_cases h : cond <;> simp [h]

/-- Characterization of membership in `detectChanges`. -/
theorem mem_detectChanges_iff {c p : Snapshot} {r : ChangeRecord} :
    r ∈ detectChanges c p ↔
      (c.hash ≠ p.hash ∧
        r = ⟨"content", none, "Page content has changed", "medium", none⟩) ∨
      (c.title ≠ p.title ∧
        r = ⟨"title", none, "Title changed from \"" ++ p.title ++ "\" to \"" ++
          c.title ++ "\"", "high", none⟩) ∨
      (c.url ≠ p.url ∧
        r = ⟨"url", none, "URL changed from \"" ++ p.url ++ "\" to \"" ++
          c.url ++ "\"", "high", none⟩) ∨
      r ∈ compareMetrics c.metrics p.metrics := by
  rw [detectChanges]
  simp only [List.mem_append, mem_ite_singleton]
  tauto

/-- C6: `detectChanges` emits a content record (severity medium) iff the
hashes differ, a title record (severity high) iff the titles differ under
exact case-sensitive comparison, a url record (severity high) iff the urls
differ, in the fixed order content, title, url, then metric records; and
titles "Home" vs "home" with all other compared fields equal yield exactly
one high-severity title record. -/
theorem C6_detectChanges_kinds_and_order (c p : Snapshot) :
    ((∃ r ∈ detectChanges c p, r.type = "content") ↔ c.hash ≠ p.hash) ∧
    (∀ r ∈ detectChanges c p, r.type = "content" → r.severity = "medium") ∧
    ((∃ r ∈ detectChanges c p, r.type = "title") ↔ c.title ≠ p.title) ∧
    (∀ r ∈ detectChanges c p, r.type = "title" → r.severity = "high") ∧
    ((∃ r ∈ detectChanges c p, r.type = "url") ↔ c.url ≠ p.url) ∧
    (∀ r ∈ detectChanges c p, r.type = "url" → r.severity = "high") ∧
    (detectChanges c p).Pairwise
      (fun a b => typeRank a.type ≤ typeRank b.type) ∧
    ((detectChanges titledhome titledHome).map fun r => (r.type, r.severity)) =
      [("title", "high")] := by
  refine ⟨?_, ?_, ?_, ?_, ?_, ?_, ?_, by with_unfolding_all decide⟩
  · constructor
    · rintro ⟨r, hr, ht⟩
      rcases mem_detectChanges_iff.mp hr with ⟨hc, hrec⟩ | ⟨hc, hrec⟩ |
        ⟨hc, hrec⟩ | hm
      · exact hc
      · rw [hrec] at ht
        simp at ht
      · rw [hrec] at ht
        simp at ht
      · have h3 := compareMetrics_type hm
        rw [h3] at ht
        simp at ht
    · intro hc
      exact ⟨⟨"content", none, "Page content has changed", "medium", none⟩,
        mem_detectChanges_iff.mpr (Or.inl ⟨hc, rfl⟩), rfl⟩
  · intro r hr ht
    rcases mem_detectChanges_iff.mp hr with ⟨_, hrec⟩ | ⟨_, hrec⟩ |
      ⟨_, hrec⟩ | hm
    · rw [hrec]
    · rw [hrec] at ht
      simp at ht
    · rw [hrec] at ht
      simp at ht
    · have h3 := compareMetrics_type hm
      rw [h3] at ht
      simp at ht
  · constructor
    · rintro ⟨r, hr, ht⟩
      rcases mem_detectChanges_iff.mp hr with ⟨hc, hrec⟩ | ⟨hc, hrec⟩ |
        ⟨hc, hrec⟩ | hm
      · rw [hrec] at ht
        simp at ht
      · exact hc
      · rw [hrec] at ht
        simp at ht
      · have h3 := compareMetrics_type hm
        rw [h3] at ht
        simp at ht
    · intro hc
      exact ⟨⟨"title", none, "Title changed from \"" ++ p.title ++
          "\" to \"" ++ c.title ++ "\"", "high", none⟩,
        mem_detectChanges_iff.mpr (Or.inr (Or.inl ⟨hc, rfl⟩)), rfl⟩
  · intro r hr ht
    rcases mem_detectChanges_iff.mp hr with ⟨_, hrec⟩ | ⟨_, hrec⟩ |
      ⟨_, hrec⟩ | hm
    · rw [hrec] at ht
      simp at ht
    · rw [hrec]
    · rw [hrec] at ht
      simp at ht
    · have h3 := compareMetrics_type hm
      rw [h3] at ht
      simp at ht
  · constructor
    · rintro ⟨r, hr, ht⟩
      rcases mem_detectChanges_iff.mp hr with ⟨hc, hrec⟩ | ⟨hc, hrec⟩ |
        ⟨hc, hrec⟩ | hm
      · rw [hrec] at ht
        simp at ht
      · rw [hrec] at ht
        simp at ht
      · exact hc
      · have h3 := compareMetrics_type hm
        rw [h3] at ht
        simp at ht
    · intro hc
      exact ⟨⟨"url", none, "URL changed from \"" ++ p.url ++ "\" to \"" ++
          c.url ++ "\"", "high", none⟩,
        mem_detectChanges_iff.mpr (Or.inr (Or.inr (Or.inl ⟨hc, rfl⟩))), rfl⟩
  · intro r hr ht
    rcases mem_detectChanges_iff.mp hr with ⟨_, hrec⟩ | ⟨_, hrec⟩ |
      ⟨_, hrec⟩ | hm
    · rw [hrec] at ht
      simp at ht
    · rw [hrec] at ht
      simp at ht
    · rw [hrec]
    · have h3 := compareMetrics_type hm
      rw [h3] at ht
      simp at ht
  · rw [detectChanges]
    have hAt : ∀ a ∈ (if c.hash ≠ p.hash then
        [(⟨"content", none, "Page content has changed", "medium", none⟩ :
          ChangeRecord)] else []), a.type = "content" := by
      intro a ha
      rw [(mem_ite_singleton.mp ha).2]
    have hBt : ∀ a ∈ (if c.title ≠ p.title then
        [(⟨"title", none, "Title changed from \"" ++ p.title ++ "\" to \"" ++
          c.title ++ "\"", "high", none⟩ : ChangeRecord)] else []),
        a.type = "title" := by
      intro a ha
      rw [(mem_ite_singleton.mp ha).2]
    have hCt : ∀ a ∈ (if c.url ≠ p.url then
        [(⟨"url", none, "URL changed from \"" ++ p.url ++ "\" to \"" ++
          c.url ++ "\"", "high", none⟩ : ChangeRecord)] else []),
        a.type = "url" := by
      intro a ha
      rw [(mem_ite_singleton.mp ha).2]
    apply List.pairwise_append.mpr
    refine ⟨?_, ?_, ?_⟩
    · apply List.pairwise_append.mpr
      refine ⟨?_, ?_, ?_⟩
      · apply List.pairwise_append.mpr
        refine ⟨?_, ?_, ?_⟩
        · split <;> simp
        · split <;> simp
        · intro a ha b hb
          rw [hAt a ha, hBt b hb]
          decide
      · split <;> simp
      · intro a ha b hb
        rw [hCt b hb]
        rcases List.mem_append.mp ha with ha1 | ha2
        · rw [hAt a ha1]
          decide
        · rw [hBt a ha2]
          decide
    · refine List.pairwise_of_forall_mem_list fun a ha b hb => ?_
      rw [compareMetrics_type ha, compareMetrics_type hb]
    · intro a ha b hb
      rw [compareMetrics_type hb]
      have h3 : typeRank "metric" = 3 := by decide
      rw [h3]
      have hle3 : ∀ t : String, typeRank t ≤ 3 := by
        intro t
        rw [typeRank]
        split
        · omega
        · split
          · omega
          · split <;> omega
      exact hle3 _

/-- Witness for C6: the "Home" vs "home" title comparison. -/
theorem C6_witness :
    ((detectChanges titledhome titledHome).map fun r => (r.type, r.severity)) =
      [("title", "high")] :=
  (C6_detectChanges_kinds_and_order titledhome titledHome).2.2.2.2.2.2.2

/-- C7: `calculateChangeRate` equals one minus the count of current words
occurring among the previous words (duplicates counted) over the larger
word count; it lies in `[0, 1]`, is 0 on identical text, and is 1 on the
disjoint texts "e f g h" vs "a b c d". -/
theorem C7_changeRate_formula_and_bounds (c p : Snapshot) :
    calculateChangeRate c p =
      1 - ((((splitOnWhitespace c.textContent).filter fun word =>
          (splitOnWhitespace p.textContent).contains word).length : Rat) /
        ((max (splitOnWhitespace c.textContent).length
            (splitOnWhitespace p.textContent).length : Nat) : Rat)) ∧
    0 ≤ calculateChangeRate c p ∧
    calculateChangeRate c p ≤ 1 ∧
    (c.textContent = p.textContent → calculateChangeRate c p = 0) ∧
    calculateChangeRate textSnapABCD textSnapABCD = 0 ∧
    calculateChangeRate textSnapEFGH textSnapABCD = 1 := by
  have hmaxpos : (0 : Rat) <
      ((max (splitOnWhitespace c.textContent).length
          (splitOnWhitespace p.textContent).length : Nat) : Rat) := by
    have h1 : 1 ≤ max (splitOnWhitespace c.textContent).length
        (splitOnWhitespace p.textContent).length :=
      le_trans (one_le_splitOnWhitespace_length _) (le_max_left _ _)
    exact_mod_cast Nat.lt_of_lt_of_le Nat.zero_lt_one h1
  have hfilter_le : (((splitOnWhitespace c.textContent).filter fun word =>
      (splitOnWhitespace p.textContent).contains word).length : Rat) ≤
      ((max (splitOnWhitespace c.textContent).length
          (splitOnWhitespace p.textContent).length : Nat) : Rat) := by
    exact_mod_cast le_trans (List.length_filter_le _ _) (le_max_left _ _)
  have hq0 : (0 : Rat) ≤
      (((splitOnWhitespace c.textContent).filter fun word =>
        (splitOnWhitespace p.textContent).contains word).length : Rat) /
      ((max (splitOnWhitespace c.textContent).length
          (splitOnWhitespace p.textContent).length : Nat) : Rat) :=
    div_nonneg (by positivity) (le_of_lt hmaxpos)
  have hq1 : (((splitOnWhitespace c.textContent).filter fun word =>
      (splitOnWhitespace p.textContent).contains word).length : Rat) /
      ((max (splitOnWhitespace c.textContent).length
          (splitOnWhitespace p.textContent).length : Nat) : Rat) ≤ 1 :=
    (div_le_one hmaxpos).mpr hfilter_le
  refine ⟨rfl, ?_, ?_, ?_, by with_unfolding_all decide,
    by with_unfolding_all decide⟩
  · rw [calculateChangeRate]
    simp only [sub_nonneg]
    exact hq1
  · rw [calculateChangeRate]
    exact le_trans (sub_le_self_iff 1 |>.mpr hq0) le_rfl
  · intro htext
    rw [calculateChangeRate, htext]
    have hfilter : (splitOnWhitespace p.textContent).filter (fun word =>
        (splitOnWhitespace p.textContent).contains word) =
        splitOnWhitespace p.textContent :=
      List.filter_eq_self.mpr fun a ha => List.elem_eq_true_of_mem ha
    rw [hfilter, max_self]
    rw [div_self (by
      have h1 : 1 ≤ (splitOnWhitespace p.textContent).length :=
        one_le_splitOnWhitespace_length _
      exact Nat.cast_ne_zero.mpr (by omega))]
    ring

/-- Witness for C7: identical text gives change rate 0. -/
theorem C7_witness : calculateChangeRate textSnapABCD textSnapABCD = 0 :=
  (C7_changeRate_formula_and_bounds textSnapABCD textSnapABCD).2.2.2.1 rfl

/-- C8: saving a snapshot under an entity id and then loading that id
returns a snapshot equal in all fields to the one saved. -/
theorem C8_save_load_roundtrip (store : Store) (competitorId : String)
    (snapshot : Snapshot) :
    loadPreviousSnapshot (saveSnapshot true store competitorId snapshot)
      competitorId = some snapshot := by
  rw [saveSnapshot, if_pos rfl, loadPreviousSnapshot, lookupStr_insertStr_self]
  exact parseSnapshot_snapshotToJson snapshot

/-- C9 counterexample: a run whose snapshot write fails surfaces no error in
its results object and leaves the store unchanged — the write failure is
caught inside `saveSnapshot`, logged and swallowed, so it is not visible to
the caller as a per-entity error. -/
theorem C9_counterexample :
    (monitorWebsite [] comp1 (some content1) false
      "2026-01-01T10:00:00.000Z").1.errors = [] ∧
    (monitorWebsite [] comp1 (some content1) false
      "2026-01-01T10:00:00.000Z").2 = [] :=
  ⟨rfl, rfl⟩

/-- C9 amended: a snapshot write failure is invisible to the caller — the
run's results are identical to those of a run whose write succeeds — and
processing of the other entities continues: `monitorAll` returns one result
per monitored entity whatever the write outcomes are. -/
theorem C9_amended_write_failure_swallowed :
    (∀ (store : Store) (competitor : Competitor) (fetched : Option Snapshot)
        (now : String),
      (monitorWebsite store competitor fetched false now).1 =
        (monitorWebsite store competitor fetched true now).1) ∧
    (∀ (store : Store) (runs : List (Competitor × Option Snapshot × Bool))
        (now : String),
      (monitorAll store runs now).1.length =
        (runs.filter fun r => r.1.monitoringWebsite).length) := by
  constructor
  · intro store competitor fetched now
    cases fetched with
    | none => rfl
    | some currentContent => rfl
  · intro store runs now
    exact monitorAll_length runs store now

/-- C1: evaluation of the three-run scenario.  The first run stores a
baseline and reports no changes.  The second run fetches byte-identical
content yet emits a content change record: `monitorWebsite` computes the
content hash but never attaches it to the fetched content object, so
`detectChanges` compares the absent `current.hash` against the stored hash.
The third run, whose fetched page differs only in the `<title>` tag, emits
a content record and a title record rather than a title record alone. -/
theorem C1_scenario_run_divergence :
    firstRun.1.changes = [] ∧
    loadPreviousSnapshot firstRun.2 comp1.id =
      some ⟨content1.html, content1.title, content1.url, content1.textContent,
        content1.metrics, "2026-01-01T10:00:00.000Z",
        some (generateHash content1.html)⟩ ∧
    (secondRun.1.changes.map fun r => r.type) = ["content"] ∧
    (thirdRun.1.changes.map fun r => r.type) = ["content", "title"] := by
  refine ⟨by with_unfolding_all decide, by with_unfolding_all decide,
    by with_unfolding_all decide, by with_unfolding_all decide⟩
